import Mathlib

/-!
Shallow embedding of the audio-submission ingestion pipeline in `src/app.py`
(single-file Gradio application).  The embedding covers:

* the SHA-256 content fingerprint (`hashlib.sha256(...).hexdigest()`),
* the canonical 16-bit PCM WAV encoding produced by
  `soundfile.write(..., format="WAV", subtype="PCM_16")` (mono),
* provenance extraction (`_client_ip`, `_username_from_request`),
* the relational store (`AudioText`, `SubmissionMeta` rows) and
* the orchestrating `process_audio` function, including the transaction /
  rollback behaviour of its `try/except/finally` block, and
* a small interleaving model of two concurrent `process_audio` calls racing
  on the same content hash against the storage-layer unique constraint.

Machine integers are modelled as `Nat` with explicit reduction modulo `2^32`
where 32-bit wraparound matters (inside SHA-256); Python byte strings are
`List Nat` (each entry < 256); a Python function that may raise is modelled
with an explicit `raise` result.
-/

set_option maxRecDepth 1000000

namespace SpeechRec

/-! ## SHA-256 (models `hashlib.sha256(bytes).hexdigest()`) -/

/-- `2^32`, the modulus for 32-bit arithmetic inside SHA-256. -/
def M32 : Nat := 4294967296

/-- Right rotation of a 32-bit word. -/
def rot32r (n x : Nat) : Nat := ((x >>> n) + (x <<< (32 - n))) % M32

/-- Bitwise complement within 32 bits. -/
def not32 (x : Nat) : Nat := (M32 - 1) ^^^ x

/-- Small sigma 0 of the SHA-256 message schedule. -/
def wsigma0 (w : Nat) : Nat := rot32r 7 w ^^^ rot32r 18 w ^^^ (w >>> 3)

/-- Small sigma 1 of the SHA-256 message schedule. -/
def wsigma1 (w : Nat) : Nat := rot32r 17 w ^^^ rot32r 19 w ^^^ (w >>> 10)

/-- Big sigma 0 of the SHA-256 compression function. -/
def csigma0 (a : Nat) : Nat := rot32r 2 a ^^^ rot32r 13 a ^^^ rot32r 22 a

/-- Big sigma 1 of the SHA-256 compression function. -/
def csigma1 (e : Nat) : Nat := rot32r 6 e ^^^ rot32r 11 e ^^^ rot32r 25 e

/-- SHA-256 choice function. -/
def ch256 (e f g : Nat) : Nat := (e &&& f) ^^^ (not32 e &&& g)

/-- SHA-256 majority function. -/
def maj256 (a b c : Nat) : Nat := (a &&& b) ^^^ (a &&& c) ^^^ (b &&& c)

/-- The 64 SHA-256 round constants. -/
def k256 : Array Nat := #[
  1116352408, 1899447441, 3049323471, 3921009573, 961987163,
  1508970993, 2453635748, 2870763221, 3624381080, 310598401,
  607225278, 1426881987, 1925078388, 2162078206, 2614888103,
  3248222580, 3835390401, 4022224774, 264347078, 604807628,
  770255983, 1249150122, 1555081692, 1996064986, 2554220882,
  2821834349, 2952996808, 3210313671, 3336571891, 3584528711,
  113926993, 338241895, 666307205, 773529912, 1294757372,
  1396182291, 1695183700, 1986661051, 2177026350, 2456956037,
  2730485921, 2820302411, 3259730800, 3345764771, 3516065817,
  3600352804, 4094571909, 275423344, 430227734, 506948616,
  659060556, 883997877, 958139571, 1322822218, 1537002063,
  1747873779, 1955562222, 2024104815, 2227730452, 2361852424,
  2428436474, 2756734187, 3204031479, 3329325298]

/-- The eight SHA-256 initial hash words. -/
def h256 : List Nat :=
  [1779033703, 3144134277, 1013904242, 2773480762, 1359893119,
   2600822924, 528734635, 1541459225]

/-- `k` bytes of `n`, big-endian. -/
def beBytes (k n : Nat) : List Nat :=
  (List.range k).map (fun i => n / 256 ^ (k - 1 - i) % 256)

/-- SHA-256 padding: append `0x80`, zero bytes up to 56 mod 64, then the
bit length as 8 big-endian bytes. -/
def padMsg (msg : List Nat) : List Nat :=
  let L := msg.length
  let z := (119 - L % 64) % 64
  msg ++ 128 :: List.replicate z 0 ++ beBytes 8 (8 * L)

/-- Chunking worker: `k` is the number of bytes still needed to complete the
current chunk, `cur` holds the current chunk reversed. -/
def chunksAux : Nat → List Nat → List Nat → List (List Nat)
  | _, cur, [] => if cur.isEmpty then [] else [cur.reverse]
  | k, cur, b :: rest =>
    if k ≤ 1 then (b :: cur).reverse :: chunksAux 64 [] rest
    else chunksAux (k - 1) (b :: cur) rest

/-- Split a byte list into 64-byte chunks. -/
def toChunks (l : List Nat) : List (List Nat) := chunksAux 64 [] l

/-- Big-endian interpretation of a byte list as one word. -/
def bytesToWord (l : List Nat) : Nat := l.foldl (fun acc b => acc * 256 + b) 0

/-- The sixteen 32-bit big-endian words of a 64-byte chunk. -/
def chunkWords (c : List Nat) : Array Nat :=
  ((List.range 16).map (fun i => bytesToWord ((c.drop (4 * i)).take 4))).toArray

/-- Extend 16 schedule words to 64. -/
def schedule (ws : Array Nat) : Array Nat :=
  (List.range 48).foldl
    (fun arr i =>
      let j := i + 16
      arr.push ((arr.getD (j - 16) 0 + wsigma0 (arr.getD (j - 15) 0) +
                 arr.getD (j - 7) 0 + wsigma1 (arr.getD (j - 2) 0)) % M32))
    ws

/-- Working state of the SHA-256 compression rounds. -/
structure Sha256State where
  a : Nat
  b : Nat
  c : Nat
  d : Nat
  e : Nat
  f : Nat
  g : Nat
  h : Nat

/-- One SHA-256 compression round. -/
def round256 (w : Array Nat) (st : Sha256State) (i : Nat) : Sha256State :=
  let t1 := (st.h + csigma1 st.e + ch256 st.e st.f st.g +
             k256.getD i 0 + w.getD i 0) % M32
  let t2 := (csigma0 st.a + maj256 st.a st.b st.c) % M32
  ⟨(t1 + t2) % M32, st.a, st.b, st.c, (st.d + t1) % M32, st.e, st.f, st.g⟩

/-- Compress one 64-byte chunk into the running hash words. -/
def compress (hs : List Nat) (chunk : List Nat) : List Nat :=
  let w := schedule (chunkWords chunk)
  let g0 := fun i => hs.getD i 0
  let st := (List.range 64).foldl (round256 w)
    ⟨g0 0, g0 1, g0 2, g0 3, g0 4, g0 5, g0 6, g0 7⟩
  [(g0 0 + st.a) % M32, (g0 1 + st.b) % M32, (g0 2 + st.c) % M32,
   (g0 3 + st.d) % M32, (g0 4 + st.e) % M32, (g0 5 + st.f) % M32,
   (g0 6 + st.g) % M32, (g0 7 + st.h) % M32]

/-- The eight 32-bit hash words of a byte message. -/
def sha256words (msg : List Nat) : List Nat :=
  (toChunks (padMsg msg)).foldl compress h256

/-- Lowercase hexadecimal digit. -/
def hexChar (n : Nat) : Char := Char.ofNat (if n < 10 then 48 + n else 87 + n)

/-- Eight lowercase hex characters of a 32-bit word. -/
def wordHex (w : Nat) : List Char :=
  (List.range 8).map (fun i => hexChar (w / 16 ^ (7 - i) % 16))

/-- Models `hashlib.sha256(msg).hexdigest()`: the 64-character lowercase
hexadecimal SHA-256 digest of a byte string. -/
def sha256hex (msg : List Nat) : String :=
  String.mk ((sha256words msg).foldr (fun w acc => wordHex w ++ acc) [])

/-! ## Canonical WAV / PCM_16 encoding

Models `soundfile.write(buf, audio_np, int(sr), format="WAV", subtype="PCM_16")`
followed by `buf.getvalue()` (src/app.py lines 77-79) for a one-dimensional
(mono) sample buffer: a canonical 44-byte RIFF/WAVE header followed by each
sample as a little-endian 16-bit two's-complement integer. -/

/-- Two little-endian bytes of a 16-bit value. -/
def le16 (n : Nat) : List Nat := [n % 256, n / 256 % 256]

/-- Four little-endian bytes of a 32-bit value. -/
def le32 (n : Nat) : List Nat :=
  [n % 256, n / 256 % 256, n / 65536 % 256, n / 16777216 % 256]

/-- A sample as a little-endian 16-bit two's-complement integer. -/
def int16le (v : Int) : List Nat := le16 (v % 65536).toNat

/-- The PCM_16 data section: each sample in order, two bytes each. -/
def pcm16 : List Int → List Nat
  | [] => []
  | v :: rest => int16le v ++ pcm16 rest

/-- The canonical WAV container for mono 16-bit PCM: RIFF/WAVE header,
`fmt ` chunk (PCM, 1 channel, 16 bits), `data` chunk. -/
def wavEncode (samples : List Int) (sr : Nat) : List Nat :=
  let dataLen := 2 * samples.length
  [82, 73, 70, 70] ++ le32 (36 + dataLen) ++ [87, 65, 86, 69] ++
  [102, 109, 116, 32] ++ le32 16 ++ le16 1 ++ le16 1 ++
  le32 sr ++ le32 (sr * 2) ++ le16 2 ++ le16 16 ++
  [100, 97, 116, 97] ++ le32 dataLen ++ pcm16 samples

/-- Models the `soundfile.write` call as used in `process_audio`: libsndfile
refuses to open a WAV stream with a non-positive sample rate, so the call
raises (the raise is NOT caught: it happens outside the `try` block); for a
positive rate it produces the canonical encoded bytes. -/
def sfWrite (samples : List Int) (sr : Int) : Except String (List Nat) :=
  if sr ≤ 0 then Except.error "Invalid samplerate"
  else Except.ok (wavEncode samples sr.toNat)

/-! ## Python string primitives

Structurally recursive models of the string operations the source uses
(`str.strip`, single-character `str.split`, `str.lower`,
`str.startswith("basic ")`), over the character list of a string. -/

/-- The ASCII whitespace stripped by Python's `str.strip()`. -/
def pySpace (c : Char) : Bool :=
  c == ' ' || c == '\t' || c == '\n' || c == '\r' ||
  c == Char.ofNat 11 || c == Char.ofNat 12

/-- Models Python `s.strip()`: remove leading and trailing whitespace. -/
def pyStrip (s : String) : String :=
  String.mk (((s.data.dropWhile pySpace).reverse.dropWhile pySpace).reverse)

/-- The characters before the first occurrence of `c`: `s.split(c)[0]`,
also when `c` does not occur. -/
def takeUntil (c : Char) : List Char → List Char
  | [] => []
  | x :: xs => if x == c then [] else x :: takeUntil c xs

/-- The characters after the first occurrence of `c`: `s.split(c, 1)[1]`,
defined when `c` occurs (the callers guard this). -/
def dropThrough (c : Char) : List Char → List Char
  | [] => []
  | x :: xs => if x == c then xs else dropThrough c xs

/-- Whether a lowercased character list begins with `basic ` — models
`s.lower().startswith("basic ")` once composed with `Char.toLower`. -/
def beginsBasic : List Char → Bool
  | 'b' :: 'a' :: 's' :: 'i' :: 'c' :: ' ' :: _ => true
  | _ => false

/-! ## Request context and provenance extraction -/

/-- The transport-level peer (starlette `request.client`); its `host`
attribute may be missing (`None`). -/
structure Client where
  host : Option String

/-- The request context handed to `process_audio` by Gradio.  `headers`
models the case-insensitively keyed header bag (keys stored lowercase, the
only way the code queries them); `headers = none` models an object without
a `headers` attribute (the code guards every access with `hasattr`), and
`client = none` models a missing/falsy `request.client`. -/
structure Request where
  headers : Option (List (String × String))
  client : Option Client

/-- Header lookup (`req.headers.get(key)`): first pair with the given
(lowercase) key. -/
def hget (hs : List (String × String)) (k : String) : Option String :=
  (hs.find? (fun p => p.1 == k)).map (fun p => p.2)

/-- Models `_client_ip` (src/app.py lines 47-55): `None` for a falsy
request; else the first comma-separated entry of a truthy (present,
non-empty) `x-forwarded-for` header, stripped; else the peer host when the
client and its `host` attribute are truthy; else `None`. -/
def client_ip (req : Option Request) : Option String :=
  match req with
  | none => none
  | some r =>
    let xff := match r.headers with
      | none => none
      | some hs => hget hs "x-forwarded-for"
    match xff with
    | some s =>
      if s ≠ "" then some (pyStrip (String.mk (takeUntil (Char.ofNat 44) s.data)))
      else peerHost r
    | none => peerHost r
where
  /-- The fallback of `_client_ip`: `req.client.host` when `req.client` is
  truthy and `getattr(req.client, "host", None)` is truthy. -/
  peerHost (r : Request) : Option String :=
    match r.client with
    | some c =>
      match c.host with
      | some hst => if hst ≠ "" then some hst else none
      | none => none
    | none => none

/-- Models `_username_from_request` (src/app.py lines 57-65).  The combined
`b64decode(...).decode("utf-8")` step is passed in as `b64`, any failure of
which the Python `except Exception` clause converts to `None`; the result is
`Except.ok` when the Python function returns, `Except.error` when it would
raise (it never does — the theorem for C7 proves this for every decoder). -/
def username_from_request (b64 : String → Except String String)
    (req : Option Request) : Except String (Option String) :=
  let auth := match req with
    | none => none
    | some r =>
      match r.headers with
      | none => none
      | some hs => hget hs "authorization"
  match auth with
  | none => Except.ok none
  | some a =>
    if a ≠ "" ∧ beginsBasic (a.data.map Char.toLower) = true then
      match b64 (String.mk (dropThrough (Char.ofNat 32) a.data)) with
      | Except.ok userpass =>
        Except.ok (some (String.mk (takeUntil (Char.ofNat 58) userpass.data)))
      | Except.error _ => Except.ok none
    else Except.ok none

/-! ## The relational store

Models the two SQLAlchemy tables `audio_text` and `submission_meta`
(src/app.py lines 19-41).  Surrogate primary keys are modelled by the
`nextAudioId` / `nextMetaId` counters (autoincrement). -/

/-- A row of the `audio_text` table (the `AudioText` model). -/
structure AudioRow where
  id : Nat
  title : String
  audio_data : List Nat
  audio_hash : String
  transcript : Option String
  description : Option String
  sample_rate : Int
  date : String
deriving DecidableEq

/-- A row of the `submission_meta` table (the `SubmissionMeta` model). -/
structure MetaRow where
  id : Nat
  audio_id : Nat
  ip_address : Option String
  username : Option String
  user_agent : Option String
  timestamp : String
deriving DecidableEq

/-- The database state: the two tables plus their autoincrement counters. -/
structure Store where
  audioRows : List AudioRow
  metaRows : List MetaRow
  nextAudioId : Nat
  nextMetaId : Nat
deriving DecidableEq

/-- The empty database. -/
def emptyStore : Store := ⟨[], [], 1, 1⟩

/-- Models `session.query(AudioText).filter_by(audio_hash=h).first()`
being truthy: some stored audio row carries hash `h`. -/
def hashInStore (store : Store) (h : String) : Bool :=
  store.audioRows.any (fun r => r.audio_hash == h)

/-- The store never contains an audio row without a matching meta row, nor
a meta row without its audio row (the claim C2 matching property). -/
def rowsMatched (s : Store) : Bool :=
  s.audioRows.all (fun a => s.metaRows.any (fun m => m.audio_id == a.id)) &&
  s.metaRows.all (fun m => s.audioRows.any (fun a => a.id == m.audio_id))

/-! ## The ingestion pipeline: `process_audio` -/

/-- The outcome of calling a Python function: a returned value or an
uncaught exception. -/
inductive PyResult where
  | ret (msg : String)
  | raise (err : String)
deriving DecidableEq

/-- The second component of the Gradio audio value: a numpy `ndarray` of
samples (modelled mono and numeric, as Gradio delivers), or some other,
non-`ndarray` object. -/
inductive AudioBuf where
  | ndarray (samples : List Int)
  | other
deriving DecidableEq

/-- `MAX_BYTES = 10 * 1024 * 1024` (src/app.py line 45). -/
def MAX_BYTES : Nat := 10 * 1024 * 1024

/-- The title guard `not title or not title.strip()` (src/app.py line 68):
true for a missing title, the empty string, or a whitespace-only string. -/
def titleBlank : Option String → Bool
  | none => true
  | some t => t == "" || pyStrip t == ""

/-- Models `(x.strip() or None) if x else None` (src/app.py lines 98-99):
`None` stays `None`, an empty or whitespace-only string becomes `None`,
anything else is stripped. -/
def stripOrNone : Option String → Option String
  | none => none
  | some s =>
    if s == "" then none else if pyStrip s == "" then none else some (pyStrip s)

/-- Models `ip or 'unknown IP'` in the success message (src/app.py
line 115). -/
def ipDisplay : Option String → String
  | none => "unknown IP"
  | some s => if s == "" then "unknown IP" else s

/-- The success message (src/app.py line 115). -/
def savedMsg (ip : Option String) : String :=
  "Saved. Request from " ++ ipDisplay ip ++ "."

/-- The duplicate message (src/app.py line 92). -/
def dupMsg : String := "Duplicate submission detected for this audio."

/-- The generic storage-error message (src/app.py line 118), built from the
caught exception's text. -/
def dbErrMsg (e : String) : String := "An error occurred while saving data: " ++ e

/-- The blank-title message (src/app.py line 69). -/
def titleMsg : String := "Title is required."

/-- The missing-audio message (src/app.py line 71). -/
def audioMsg : String := "Audio is required."

/-- The structurally-invalid-audio message (src/app.py line 75). -/
def invalidMsg : String := "Invalid audio input."

/-- The oversized-audio message (src/app.py line 81). -/
def tooLargeMsg : String :=
  "Audio file is too large. Please upload a file smaller than 10MB."

/-- Models the user-agent lookup `request.headers.get("user-agent") if
hasattr(request, "headers") else None` (src/app.py line 85). -/
def uaOf (request : Option Request) : Option String :=
  match request with
  | none => none
  | some r =>
    match r.headers with
    | none => none
    | some hs => hget hs "user-agent"

/-- Models `process_audio` (src/app.py lines 67-120) as a function from the
inputs and the database state to the Python outcome (returned message or
uncaught exception) and the resulting database state.

* `b64` stands for the `b64decode(...).decode("utf-8")` library composite
  used by `_username_from_request`.
* `now` stands for the `datetime.utcnow().strftime(...)` timestamp string.
* `dbError` is the storage-failure oracle: `some e` means the storage layer
  raises an exception with text `e` during the write (at `flush` or
  `commit`); the `except Exception` clause then rolls the transaction back
  — no partial rows remain — and returns the generic error message.  The
  read-only paths before the first write are unaffected. -/
def process_audio (audio : Option (Int × AudioBuf))
    (title transcript description : Option String)
    (request : Option Request)
    (b64 : String → Except String String)
    (now : String) (dbError : Option String)
    (store : Store) : PyResult × Store :=
  if titleBlank title then (PyResult.ret titleMsg, store)
  else match audio with
  | none => (PyResult.ret audioMsg, store)
  | some (sr, buf) =>
    match buf with
    | AudioBuf.other => (PyResult.ret invalidMsg, store)
    | AudioBuf.ndarray samples =>
      if samples.length = 0 then (PyResult.ret invalidMsg, store)
      else
        match sfWrite samples sr with
        | Except.error e => (PyResult.raise e, store)
        | Except.ok wav_bytes =>
          if wav_bytes.length > MAX_BYTES then
            (PyResult.ret tooLargeMsg, store)
          else
            let audio_hash := sha256hex wav_bytes
            let ip := client_ip request
            let ua := uaOf request
            match username_from_request b64 request with
            | Except.error e => (PyResult.raise e, store)
            | Except.ok user =>
              if hashInStore store audio_hash then
                (PyResult.ret dupMsg, store)
              else
                match dbError with
                | some e => (PyResult.ret (dbErrMsg e), store)
                | none =>
                  let entry : AudioRow :=
                    { id := store.nextAudioId,
                      title := pyStrip (title.getD ""),
                      audio_data := wav_bytes,
                      audio_hash := audio_hash,
                      transcript := stripOrNone transcript,
                      description := stripOrNone description,
                      sample_rate := sr,
                      date := now }
                  let meta : MetaRow :=
                    { id := store.nextMetaId,
                      audio_id := entry.id,
                      ip_address := ip,
                      username := user,
                      user_agent := ua,
                      timestamp := now }
                  (PyResult.ret (savedMsg ip),
                   { audioRows := store.audioRows ++ [entry],
                     metaRows := store.metaRows ++ [meta],
                     nextAudioId := store.nextAudioId + 1,
                     nextMetaId := store.nextMetaId + 1 })

/-! ## Two concurrent calls racing on one content hash (claim C9)

Each `process_audio` call performs two database interactions: the duplicate
SELECT (src/app.py line 90) and the INSERT+COMMIT of the two rows (lines
94-114).  The schema declares `audio_hash` unique (lines 24 and 31), so the
database itself rejects the second INSERT of the same hash; the raised
uniqueness violation is caught by the call's generic `except Exception`
handler (line 116), which rolls back and returns the generic storage-error
message.  The model below runs two calls that share the raced hash `h`
under an arbitrary interleaving of those database steps; the database is
projected to the list of committed hashes. -/

/-- Progress of one racing call through its two database steps. -/
inductive CallPhase where
  | start
  | checked
  | done (msg : String)
deriving DecidableEq

/-- Whether a committed row with hash `h` exists. -/
def hasHash (db : List String) (h : String) : Bool :=
  db.any (fun x => x == h)

/-- One database step of one racing call, for raced hash `h`, resolved
client ip `ip` and uniqueness-violation exception text `e`:

* at `start`, the duplicate SELECT: a found row ends the call with the
  duplicate message, otherwise the call proceeds to the write;
* at `checked`, the INSERT+COMMIT: the unique index rejects the write when
  a row with `h` was committed meanwhile — caught, rolled back and turned
  into the generic error message — otherwise the row commits and the call
  ends with the success message;
* a finished call does nothing. -/
def raceStep (h : String) (ip : Option String) (e : String)
    (db : List String) (p : CallPhase) : List String × CallPhase :=
  match p with
  | CallPhase.start =>
    if hasHash db h then (db, CallPhase.done dupMsg)
    else (db, CallPhase.checked)
  | CallPhase.checked =>
    if hasHash db h then (db, CallPhase.done (dbErrMsg e))
    else (db ++ [h], CallPhase.done (savedMsg ip))
  | CallPhase.done m => (db, CallPhase.done m)

/-- Joint state of the database and the two racing calls. -/
structure RaceState where
  db : List String
  pa : CallPhase
  pb : CallPhase
deriving DecidableEq

/-- Run the two racing calls under a schedule: `false` steps call A,
`true` steps call B. -/
def raceRun (h : String) (ipa ipb : Option String) (ea eb : String) :
    List Bool → RaceState → RaceState
  | [], st => st
  | c :: rest, st =>
    if c then
      let s := raceStep h ipb eb st.db st.pb
      raceRun h ipa ipb ea eb rest ⟨s.1, st.pa, s.2⟩
    else
      let s := raceStep h ipa ea st.db st.pa
      raceRun h ipa ipb ea eb rest ⟨s.1, s.2, st.pb⟩

/-- The six interleavings of the two database steps of call A with the two
database steps of call B. -/
def interleavings : List (List Bool) :=
  [[false, false, true, true], [false, true, false, true],
   [false, true, true, false], [true, false, false, true],
   [true, false, true, false], [true, true, false, false]]

/-! ## Concrete objects used by the witnesses -/

/-- A decoder that decodes every string to itself. -/
def b64Id : String → Except String String := fun s => Except.ok s

/-- A decoder that fails on every string. -/
def b64Fail : String → Except String String := fun s => Except.error s

/-- The encoded bytes of a one-sample silent 8 kHz clip. -/
def sampleWav : List Nat := wavEncode [0] 8000

/-- A stored audio row carrying the digest of `sampleWav`. -/
def sampleRow : AudioRow :=
  { id := 1, title := "Greeting", audio_data := sampleWav,
    audio_hash := sha256hex sampleWav, transcript := none,
    description := none, sample_rate := 8000, date := "2026-01-01 00:00:00" }

/-- The meta row paired with `sampleRow`. -/
def sampleMeta : MetaRow :=
  { id := 1, audio_id := 1, ip_address := none, username := none,
    user_agent := none, timestamp := "2026-01-01 00:00:00" }

/-- A one-submission store holding `sampleRow` and `sampleMeta`. -/
def sampleStore : Store := ⟨[sampleRow], [sampleMeta], 2, 2⟩

/-- A request carrying a basic-auth header whose payload no decoder
accepts, for the C7 witness. -/
def badAuthReq : Request := ⟨some [("authorization", "Basic !!!")], none⟩

/-- The claim C8 resolution rule, written from the spec's words: the first
comma-separated entry (trimmed) of the `x-forwarded-for` header when that
header is present and non-empty; otherwise the transport-level peer
address when available (the code's notion of availability: a truthy
client with a truthy host); otherwise `None`.  Compared with `client_ip`
in the C8 theorem. -/
def specIp (req : Option Request) : Option String :=
  match req with
  | none => none
  | some r =>
    let fwd := match r.headers with
      | none => none
      | some hs =>
        match hget hs "x-forwarded-for" with
        | some x => if x ≠ "" then some x else none
        | none => none
    match fwd with
    | some x => some (pyStrip (String.mk (takeUntil (Char.ofNat 44) x.data)))
    | none => client_ip.peerHost r

/-! ## Theorems -/

/-- **C3**: a submit call with a missing or blank (whitespace-only) title
returns the title-required message and nothing else runs: the store —
hence its row count — is unchanged, for every audio value, request,
decoder, time and storage-failure oracle. -/
theorem C3_blank_title_rejected
    (audio : Option (Int × AudioBuf))
    (title transcript description : Option String)
    (request : Option Request) (b64 : String → Except String String)
    (now : String) (dbError : Option String) (store : Store)
    (hb : titleBlank title = true) :
    process_audio audio title transcript description request b64 now dbError store
      = (PyResult.ret titleMsg, store) := by
  simp [process_audio, hb]

/-- Witness for C3: a whitespace-only title on the empty store. -/
theorem C3_blank_title_rejected_witness :
    titleBlank (some "   ") = true ∧
    process_audio none (some "   ") none none none b64Id "t" none emptyStore
      = (PyResult.ret titleMsg, emptyStore) :=
  ⟨by decide, C3_blank_title_rejected none (some "   ") none none none b64Id
    "t" none emptyStore (by decide)⟩

/-- **C1**: when the content hash of the normalized audio already has a
stored row, `process_audio` returns the duplicate message — a returned
outcome distinct from every error — and the store is unchanged (rows and
counters identical, so the row count is too), regardless of the new
submission's title and other metadata. -/
theorem C1_duplicate_rejected
    (sr : Int) (samples : List Int) (t : String)
    (transcript description : Option String) (request : Option Request)
    (b64 : String → Except String String) (now : String)
    (dbError : Option String) (store : Store) (user : Option String)
    (ht : titleBlank (some t) = false)
    (hs : samples.length ≠ 0)
    (hsr : 0 < sr)
    (hsize : (wavEncode samples sr.toNat).length ≤ MAX_BYTES)
    (hu : username_from_request b64 request = Except.ok user)
    (hdup : hashInStore store (sha256hex (wavEncode samples sr.toNat)) = true) :
    process_audio (some (sr, AudioBuf.ndarray samples)) (some t)
        transcript description request b64 now dbError store
      = (PyResult.ret dupMsg, store) := by
  simp [process_audio, ht, hs, hsr, hsize, hdup, hu, sfWrite,
    Int.not_le.mpr hsr, Nat.not_lt.mpr hsize]

/-- Witness for C1: resubmitting the one-sample clip already held by
`sampleStore` under a different title is rejected as a duplicate with the
store unchanged. -/
theorem C1_duplicate_rejected_witness :
    titleBlank (some "Other title") = false ∧
    ([(0 : Int)] : List Int).length ≠ 0 ∧
    (0 : Int) < 8000 ∧
    (wavEncode [0] (8000 : Int).toNat).length ≤ MAX_BYTES ∧
    username_from_request b64Id none = Except.ok none ∧
    hashInStore sampleStore (sha256hex (wavEncode [0] (8000 : Int).toNat)) = true ∧
    process_audio (some (8000, AudioBuf.ndarray [0])) (some "Other title")
        none none none b64Id "2026-02-02 00:00:00" none sampleStore
      = (PyResult.ret dupMsg, sampleStore) :=
  ⟨by decide, by decide, by decide, by decide, rfl, by decide,
   C1_duplicate_rejected 8000 [0] "Other title" none none none b64Id
     "2026-02-02 00:00:00" none sampleStore none (by decide) (by decide)
     (by decide) (by decide) rfl (by decide)⟩

/-- On the fully successful path — valid title and audio, positive rate,
encoded size within bound, username decode returning, no stored duplicate,
no storage failure — `process_audio` returns the success message and
appends exactly one audio row and its linked meta row. -/
theorem process_audio_accepted
    (sr : Int) (samples : List Int) (t : String)
    (transcript description : Option String) (request : Option Request)
    (b64 : String → Except String String) (now : String) (store : Store)
    (user : Option String)
    (ht : titleBlank (some t) = false)
    (hs : samples.length ≠ 0)
    (hsr : 0 < sr)
    (hsize : (wavEncode samples sr.toNat).length ≤ MAX_BYTES)
    (hu : username_from_request b64 request = Except.ok user)
    (hdup : hashInStore store (sha256hex (wavEncode samples sr.toNat)) = false) :
    process_audio (some (sr, AudioBuf.ndarray samples)) (some t)
        transcript description request b64 now none store
      = (PyResult.ret (savedMsg (client_ip request)),
         { audioRows := store.audioRows ++
             [{ id := store.nextAudioId, title := pyStrip t,
                audio_data := wavEncode samples sr.toNat,
                audio_hash := sha256hex (wavEncode samples sr.toNat),
                transcript := stripOrNone transcript,
                description := stripOrNone description,
                sample_rate := sr, date := now }],
           metaRows := store.metaRows ++
             [{ id := store.nextMetaId, audio_id := store.nextAudioId,
                ip_address := client_ip request, username := user,
                user_agent := uaOf request, timestamp := now }],
           nextAudioId := store.nextAudioId + 1,
           nextMetaId := store.nextMetaId + 1 }) := by
  simp [process_audio, ht, hs, hsr, hsize, hdup, hu, sfWrite,
    Int.not_le.mpr hsr, Nat.not_lt.mpr hsize]

/-- Appending one audio row together with a meta row referencing it
preserves the matching property. -/
theorem rowsMatched_insert (s : Store) (a : AudioRow) (m : MetaRow)
    (hm : rowsMatched s = true) (hid : m.audio_id = a.id) (na nm : Nat) :
    rowsMatched ⟨s.audioRows ++ [a], s.metaRows ++ [m], na, nm⟩ = true := by
  unfold rowsMatched at hm ⊢
  simp only [Bool.and_eq_true, List.all_eq_true, List.any_eq_true] at hm ⊢
  obtain ⟨h1, h2⟩ := hm
  constructor
  · intro x hx
    rcases List.mem_append.mp hx with hx | hx
    · obtain ⟨mm, hmm, hb⟩ := h1 x hx
      exact ⟨mm, List.mem_append_left _ hmm, hb⟩
    · have hxa : x = a := by simpa using hx
      subst hxa
      exact ⟨m, List.mem_append_right _ (by simp), by simp [hid]⟩
  · intro y hy
    rcases List.mem_append.mp hy with hy | hy
    · obtain ⟨aa, haa, hb⟩ := h2 y hy
      exact ⟨aa, List.mem_append_left _ haa, hb⟩
    · have hym : y = m := by simpa using hy
      subst hym
      exact ⟨a, List.mem_append_right _ (by simp), by simp [hid]⟩

/-- **C2**: after any `process_audio` call — on every outcome, including
validation failures, duplicates, injected storage failures (rolled back)
and uncaught encoder exceptions — the store never contains an audio row
without a matching meta row, nor a meta row without its audio row: the two
rows are committed together or not at all. -/
theorem C2_atomic_pairing
    (audio : Option (Int × AudioBuf))
    (title transcript description : Option String)
    (request : Option Request) (b64 : String → Except String String)
    (now : String) (dbError : Option String) (store : Store)
    (hm : rowsMatched store = true) :
    rowsMatched (process_audio audio title transcript description request
      b64 now dbError store).2 = true := by
  unfold process_audio
  repeat' split
  all_goals try exact hm
  all_goals dsimp only
  all_goals split
  all_goals first
    | exact hm
    | exact rowsMatched_insert store _ _ hm rfl _ _

/-- Witness for C2 at a concrete accepted submission on the empty store. -/
theorem C2_atomic_pairing_witness :
    rowsMatched emptyStore = true ∧
    rowsMatched (process_audio (some (16000, AudioBuf.ndarray [0, 1]))
      (some "Greeting") none none none b64Id "2026-01-01 00:00:00" none
      emptyStore).2 = true :=
  ⟨by decide,
   C2_atomic_pairing (some (16000, AudioBuf.ndarray [0, 1])) (some "Greeting")
     none none none b64Id "2026-01-01 00:00:00" none emptyStore (by decide)⟩

/-- **C10**: an accepted submission stores the title stripped of leading
and trailing whitespace, and stores the transcript and description
stripped, normalized to `None` when the submitted value is absent, empty
or whitespace-only. -/
theorem C10_stored_text_stripped
    (sr : Int) (samples : List Int) (t : String)
    (transcript description : Option String) (request : Option Request)
    (b64 : String → Except String String) (now : String) (store : Store)
    (user : Option String)
    (ht : titleBlank (some t) = false)
    (hs : samples.length ≠ 0)
    (hsr : 0 < sr)
    (hsize : (wavEncode samples sr.toNat).length ≤ MAX_BYTES)
    (hu : username_from_request b64 request = Except.ok user)
    (hdup : hashInStore store (sha256hex (wavEncode samples sr.toNat)) = false) :
    (process_audio (some (sr, AudioBuf.ndarray samples)) (some t)
        transcript description request b64 now none store).2.audioRows
      = store.audioRows ++
          [{ id := store.nextAudioId, title := pyStrip t,
             audio_data := wavEncode samples sr.toNat,
             audio_hash := sha256hex (wavEncode samples sr.toNat),
             transcript := stripOrNone transcript,
             description := stripOrNone description,
             sample_rate := sr, date := now }] := by
  rw [process_audio_accepted sr samples t transcript description request
    b64 now store user ht hs hsr hsize hu hdup]

/-- Witness for C10: a padded title, a whitespace-only transcript and a
padded description on the empty store. -/
theorem C10_stored_text_stripped_witness :
    titleBlank (some "  My clip  ") = false ∧
    (process_audio (some (16000, AudioBuf.ndarray [0, 1]))
        (some "  My clip  ") (some "   ") (some " hello ") none b64Id
        "2026-01-01 00:00:00" none emptyStore).2.audioRows
      = emptyStore.audioRows ++
          [{ id := emptyStore.nextAudioId, title := pyStrip "  My clip  ",
             audio_data := wavEncode [0, 1] (16000 : Int).toNat,
             audio_hash := sha256hex (wavEncode [0, 1] (16000 : Int).toNat),
             transcript := stripOrNone (some "   "),
             description := stripOrNone (some " hello "),
             sample_rate := 16000, date := "2026-01-01 00:00:00" }] ∧
    pyStrip "  My clip  " = "My clip" ∧
    stripOrNone (some "   ") = none ∧
    stripOrNone (some " hello ") = some "hello" :=
  ⟨by decide,
   C10_stored_text_stripped 16000 [0, 1] "  My clip  " (some "   ")
     (some " hello ") none b64Id "2026-01-01 00:00:00" emptyStore none
     (by decide) (by decide) (by decide) (by decide) rfl (by decide),
   by decide, by decide, by decide⟩

/-- The PCM data section holds two bytes per sample. -/
theorem pcm16_length (samples : List Int) :
    (pcm16 samples).length = 2 * samples.length := by
  induction samples with
  | nil => rfl
  | cons v rest ih =>
    simp [pcm16, int16le, le16, ih]
    omega

/-- The encoded WAV is the 44-byte canonical header plus two bytes per
sample. -/
theorem wavEncode_length (samples : List Int) (sr : Nat) :
    (wavEncode samples sr).length = 44 + 2 * samples.length := by
  simp [wavEncode, le16, le32, pcm16_length]
  omega

/-- **C4**: the size cap is applied to the encoded payload after encoding:
a submission whose encoded audio is within the configured 10 MiB maximum —
in particular exactly `MAX_BYTES` bytes, see the witness — passes the size
check and is stored, while one whose encoded audio exceeds the maximum by
as little as one byte is rejected with the too-large message with the
store unchanged, before any storage attempt (for every storage oracle and
store content). -/
theorem C4_size_boundary
    (sr : Int) (samples : List Int) (t : String)
    (transcript description : Option String) (request : Option Request)
    (b64 : String → Except String String) (now : String) (store : Store)
    (user : Option String)
    (ht : titleBlank (some t) = false)
    (hs : samples.length ≠ 0)
    (hsr : 0 < sr)
    (hu : username_from_request b64 request = Except.ok user)
    (hdup : hashInStore store (sha256hex (wavEncode samples sr.toNat)) = false) :
    ((wavEncode samples sr.toNat).length ≤ MAX_BYTES →
      process_audio (some (sr, AudioBuf.ndarray samples)) (some t)
          transcript description request b64 now none store
        = (PyResult.ret (savedMsg (client_ip request)),
           { audioRows := store.audioRows ++
               [{ id := store.nextAudioId, title := pyStrip t,
                  audio_data := wavEncode samples sr.toNat,
                  audio_hash := sha256hex (wavEncode samples sr.toNat),
                  transcript := stripOrNone transcript,
                  description := stripOrNone description,
                  sample_rate := sr, date := now }],
             metaRows := store.metaRows ++
               [{ id := store.nextMetaId, audio_id := store.nextAudioId,
                  ip_address := client_ip request, username := user,
                  user_agent := uaOf request, timestamp := now }],
             nextAudioId := store.nextAudioId + 1,
             nextMetaId := store.nextMetaId + 1 })) ∧
    ((wavEncode samples sr.toNat).length > MAX_BYTES →
      ∀ dbError,
        process_audio (some (sr, AudioBuf.ndarray samples)) (some t)
            transcript description request b64 now dbError store
          = (PyResult.ret tooLargeMsg, store)) := by
  constructor
  · intro hsize
    exact process_audio_accepted sr samples t transcript description request
      b64 now store user ht hs hsr hsize hu hdup
  · intro hsize dbError
    simp [process_audio, ht, hs, hsr, hsize, sfWrite, Int.not_le.mpr hsr]

/-- Witness for C4: a buffer of 5242858 zero samples encodes to exactly
`MAX_BYTES` bytes and is accepted (returned message is the success
message). -/
theorem C4_size_boundary_witness :
    (wavEncode (List.replicate 5242858 (0 : Int)) (8000 : Int).toNat).length
      = MAX_BYTES ∧
    (process_audio (some (8000, AudioBuf.ndarray (List.replicate 5242858 0)))
        (some "Big clip") none none none b64Id "2026-01-01 00:00:00" none
        emptyStore).1
      = PyResult.ret (savedMsg (client_ip none)) := by
  have hlen : (wavEncode (List.replicate 5242858 (0 : Int))
      (8000 : Int).toNat).length = MAX_BYTES := by
    rw [wavEncode_length, List.length_replicate]
    decide
  exact ⟨hlen,
    congrArg Prod.fst
      ((C4_size_boundary 8000 (List.replicate 5242858 0) "Big clip" none none
          none b64Id "2026-01-01 00:00:00" emptyStore none (by decide)
          (by rw [List.length_replicate]; decide) (by decide) rfl rfl).1
        (le_of_eq hlen))⟩

/-- Counterexample to C5 as stated: with a valid title and a non-empty
numeric buffer but sample rate `0`, `process_audio` raises the library
error uncaught — `soundfile.write` runs outside the `try` block — instead
of returning a validation outcome. -/
theorem C5_nonpositive_rate_raises :
    process_audio (some (0, AudioBuf.ndarray [5])) (some "Title") none none
        none b64Id "2026-01-01 00:00:00" none emptyStore
      = (PyResult.raise "Invalid samplerate", emptyStore) := by decide

/-- **C5 (amended)**: a submit call whose audio input is absent, or not a
numpy array, or empty returns a validation message (`Audio is required.` /
`Invalid audio input.`) and performs no storage writes, for every request,
decoder, time, storage oracle and store; a non-positive sample rate,
however, is not validated — the encoder raises and the exception
propagates uncaught (see `C5_nonpositive_rate_raises`). -/
theorem C5_invalid_audio_rejected
    (sr : Int) (t : String) (transcript description : Option String)
    (request : Option Request) (b64 : String → Except String String)
    (now : String) (dbError : Option String) (store : Store)
    (ht : titleBlank (some t) = false) :
    process_audio none (some t) transcript description request b64 now
        dbError store
      = (PyResult.ret audioMsg, store) ∧
    process_audio (some (sr, AudioBuf.other)) (some t) transcript description
        request b64 now dbError store
      = (PyResult.ret invalidMsg, store) ∧
    process_audio (some (sr, AudioBuf.ndarray [])) (some t) transcript
        description request b64 now dbError store
      = (PyResult.ret invalidMsg, store) := by
  refine ⟨?_, ?_, ?_⟩ <;> simp [process_audio, ht]

/-- Witness for the amended C5 at concrete inputs. -/
theorem C5_invalid_audio_rejected_witness :
    titleBlank (some "Title") = false ∧
    (process_audio none (some "Title") none none none b64Id "t" none emptyStore
       = (PyResult.ret audioMsg, emptyStore) ∧
     process_audio (some (16000, AudioBuf.other)) (some "Title") none none
         none b64Id "t" none emptyStore
       = (PyResult.ret invalidMsg, emptyStore) ∧
     process_audio (some (16000, AudioBuf.ndarray [])) (some "Title") none
         none none b64Id "t" none emptyStore
       = (PyResult.ret invalidMsg, emptyStore)) :=
  ⟨by decide,
   C5_invalid_audio_rejected 16000 "Title" none none none b64Id "t" none
     emptyStore (by decide)⟩

/-- **C6**: normalize-then-fingerprint — 16-bit PCM WAV encoding followed
by SHA-256 of the encoded bytes — is deterministic: identical encoded
bytes always yield identical digests, and any two accepted `process_audio`
invocations of the same raw buffer and rate, whatever their titles, texts,
requests, decoders, times and stores, store the same digest, namely
`sha256hex (wavEncode samples sr.toNat)`. -/
theorem C6_fingerprint_deterministic
    (samples : List Int) (sr : Int) (e1 e2 : List Nat)
    (t1 t2 : String) (tr1 tr2 d1 d2 : Option String)
    (req1 req2 : Option Request) (b1 b2 : String → Except String String)
    (now1 now2 : String) (store1 store2 : Store) (u1 u2 : Option String)
    (he : e1 = e2)
    (ht1 : titleBlank (some t1) = false)
    (ht2 : titleBlank (some t2) = false)
    (hs : samples.length ≠ 0) (hsr : 0 < sr)
    (hsize : (wavEncode samples sr.toNat).length ≤ MAX_BYTES)
    (hu1 : username_from_request b1 req1 = Except.ok u1)
    (hu2 : username_from_request b2 req2 = Except.ok u2)
    (hd1 : hashInStore store1 (sha256hex (wavEncode samples sr.toNat)) = false)
    (hd2 : hashInStore store2 (sha256hex (wavEncode samples sr.toNat)) = false) :
    sha256hex e1 = sha256hex e2 ∧
    ((process_audio (some (sr, AudioBuf.ndarray samples)) (some t1) tr1 d1
        req1 b1 now1 none store1).2.audioRows.getLast?).map AudioRow.audio_hash
      = some (sha256hex (wavEncode samples sr.toNat)) ∧
    ((process_audio (some (sr, AudioBuf.ndarray samples)) (some t2) tr2 d2
        req2 b2 now2 none store2).2.audioRows.getLast?).map AudioRow.audio_hash
      = some (sha256hex (wavEncode samples sr.toNat)) := by
  refine ⟨by rw [he], ?_, ?_⟩
  · rw [process_audio_accepted sr samples t1 tr1 d1 req1 b1 now1 store1 u1
      ht1 hs hsr hsize hu1 hd1]
    simp
  · rw [process_audio_accepted sr samples t2 tr2 d2 req2 b2 now2 store2 u2
      ht2 hs hsr hsize hu2 hd2]
    simp

/-- Witness for C6: the same two-sample clip submitted with different
titles, texts, times and stores. -/
theorem C6_fingerprint_deterministic_witness :
    ([1, 2] : List Nat) = [1, 2] ∧
    titleBlank (some "A") = false ∧
    titleBlank (some "B") = false ∧
    ((process_audio (some (16000, AudioBuf.ndarray [0, 1])) (some "A") none
        none none b64Id "t1" none emptyStore).2.audioRows.getLast?).map
          AudioRow.audio_hash
      = some (sha256hex (wavEncode [0, 1] (16000 : Int).toNat)) ∧
    ((process_audio (some (16000, AudioBuf.ndarray [0, 1])) (some "B")
        (some "text") none none b64Fail "t2" none
        emptyStore).2.audioRows.getLast?).map AudioRow.audio_hash
      = some (sha256hex (wavEncode [0, 1] (16000 : Int).toNat)) :=
  ⟨rfl, by decide, by decide,
   (C6_fingerprint_deterministic [0, 1] 16000 [1, 2] [1, 2] "A" "B" none
      (some "text") none none none none b64Id b64Fail "t1" "t2" emptyStore
      emptyStore none none rfl (by decide) (by decide) (by decide)
      (by decide) (by decide) rfl rfl rfl rfl).2.1,
   (C6_fingerprint_deterministic [0, 1] 16000 [1, 2] [1, 2] "A" "B" none
      (some "text") none none none none b64Id b64Fail "t1" "t2" emptyStore
      emptyStore none none rfl (by decide) (by decide) (by decide)
      (by decide) (by decide) rfl rfl rfl rfl).2.2⟩

/-- **C7**: provenance extraction never raises, for every request context —
missing context, absent headers, malformed basic-auth header — and every
behaviour of the base64/UTF-8 decoder: `_username_from_request` always
returns (never an uncaught exception), every decoder failure degrades to a
`None` username, and a missing context yields `None` from both extractors
instead of blocking ingestion. -/
theorem username_from_request_total
    (b64 : String → Except String String) (req : Option Request) :
    ∃ u, username_from_request b64 req = Except.ok u := by
  unfold username_from_request
  cases req with
  | none => exact ⟨none, rfl⟩
  | some r =>
    cases hh : r.headers with
    | none => exact ⟨none, by simp [hh]⟩
    | some hs =>
      cases ha : hget hs "authorization" with
      | none => exact ⟨none, by simp [hh, ha]⟩
      | some a =>
        by_cases hba : a ≠ "" ∧ beginsBasic (a.data.map Char.toLower) = true
        · cases hb : b64 (String.mk (dropThrough (Char.ofNat 32) a.data)) with
          | ok userpass =>
            exact ⟨some (String.mk (takeUntil (Char.ofNat 58) userpass.data)),
              by simp [hh, ha, hba, hb]⟩
          | error e => exact ⟨none, by simp [hh, ha, hba, hb]⟩
        · exact ⟨none, by simp [hh, ha, hba]⟩

theorem username_from_request_fail_none
    (b64 : String → Except String String) (req : Option Request)
    (hfail : ∀ s, ∃ e, b64 s = Except.error e) :
    username_from_request b64 req = Except.ok none := by
  unfold username_from_request
  cases req with
  | none => rfl
  | some r =>
    cases hh : r.headers with
    | none => simp [hh]
    | some hs =>
      cases ha : hget hs "authorization" with
      | none => simp [hh, ha]
      | some a =>
        obtain ⟨e, he⟩ :=
          hfail (String.mk (dropThrough (Char.ofNat 32) a.data))
        simp [hh, ha, he]

/-- **C7**: provenance extraction never raises, for every request context —
missing context, absent headers, malformed basic-auth header — and every
behaviour of the base64/UTF-8 decoder: `_username_from_request` always
returns (never an uncaught exception), every decoder failure degrades to a
`None` username, and a missing context yields `None` from both extractors
instead of blocking ingestion. -/
theorem C7_provenance_never_raises
    (b64 : String → Except String String) (req : Option Request) :
    (∃ u, username_from_request b64 req = Except.ok u) ∧
    ((∀ s, ∃ e, b64 s = Except.error e) →
      username_from_request b64 req = Except.ok none) ∧
    username_from_request b64 none = Except.ok none ∧
    client_ip none = none :=
  ⟨username_from_request_total b64 req,
   fun hfail => username_from_request_fail_none b64 req hfail, rfl, rfl⟩

/-- Witness for C7: a failing decoder on a malformed basic-auth header. -/
theorem C7_provenance_never_raises_witness :
    (∃ u, username_from_request b64Fail (some badAuthReq) = Except.ok u) ∧
    username_from_request b64Fail (some badAuthReq) = Except.ok none ∧
    username_from_request b64Fail none = Except.ok none ∧
    client_ip none = none :=
  ⟨(C7_provenance_never_raises b64Fail (some badAuthReq)).1,
   (C7_provenance_never_raises b64Fail (some badAuthReq)).2.1
     (fun s => ⟨s, rfl⟩),
   (C7_provenance_never_raises b64Fail (some badAuthReq)).2.2.1,
   (C7_provenance_never_raises b64Fail (some badAuthReq)).2.2.2⟩

/-- **C8**: for every request context the resolved submitter IP follows
the claimed cascade (`specIp`, written from the spec): the first
comma-separated entry, stripped, of a present non-empty `x-forwarded-for`
header; otherwise the transport-level peer address when available;
otherwise `None`. -/
theorem C8_ip_cascade (req : Option Request) : client_ip req = specIp req := by
  match req with
  | none => rfl
  | some r =>
    unfold client_ip specIp
    cases hh : r.headers with
    | none => simp [hh]
    | some hs =>
      cases hx : hget hs "x-forwarded-for" with
      | none => simp [hh, hx]
      | some x =>
        by_cases hxe : x = ""
        · subst hxe
          simp [hh, hx]
        · simp [hh, hx, hxe]

/-- A freshly committed hash is found by the duplicate check. -/
theorem hasHash_snoc_self (db : List String) (h : String) :
    hasHash (db ++ [h]) h = true := by
  simp [hasHash, List.any_append]

/-- After the winner commits into a database with no row for the raced
hash, that hash has exactly one row. -/
theorem count_snoc_self (db : List String) (h : String)
    (hd : hasHash db h = false) : (db ++ [h]).count h = 1 := by
  have hnm : h ∉ db := by
    intro hmem
    have ht : hasHash db h = true := by
      simp [hasHash, List.any_eq_true]
      exact hmem
    rw [ht] at hd
    cases hd
  simp [List.count_append, List.count_eq_zero.mpr hnm]

/-- **C9 (amended)**: two concurrent submissions of byte-identical content
(one shared hash, no prior row for it) end, under every interleaving of
their database steps, with exactly one stored row for that hash and
exactly one success outcome; the storage-layer unique constraint decides
the race, and the losing call observes either the duplicate message (its
check ran after the winner's commit) or the generic storage-error message
(its insert hit the unique constraint) — never a second stored row. -/
theorem C9_race_unique_winner
    (h : String) (ipa ipb : Option String) (ea eb : String)
    (db0 : List String) (hdb : hasHash db0 h = false)
    (sched : List Bool) (hmem : sched ∈ interleavings) :
    (raceRun h ipa ipb ea eb sched
        ⟨db0, CallPhase.start, CallPhase.start⟩).db.count h = 1 ∧
    (((raceRun h ipa ipb ea eb sched
          ⟨db0, CallPhase.start, CallPhase.start⟩).pa
            = CallPhase.done (savedMsg ipa) ∧
       ((raceRun h ipa ipb ea eb sched
           ⟨db0, CallPhase.start, CallPhase.start⟩).pb = CallPhase.done dupMsg ∨
        (raceRun h ipa ipb ea eb sched
           ⟨db0, CallPhase.start, CallPhase.start⟩).pb
             = CallPhase.done (dbErrMsg eb))) ∨
     ((raceRun h ipa ipb ea eb sched
          ⟨db0, CallPhase.start, CallPhase.start⟩).pb
            = CallPhase.done (savedMsg ipb) ∧
       ((raceRun h ipa ipb ea eb sched
           ⟨db0, CallPhase.start, CallPhase.start⟩).pa = CallPhase.done dupMsg ∨
        (raceRun h ipa ipb ea eb sched
           ⟨db0, CallPhase.start, CallPhase.start⟩).pa
             = CallPhase.done (dbErrMsg ea)))) := by
  have hcount := count_snoc_self db0 h hdb
  simp only [interleavings, List.mem_cons, List.mem_singleton] at hmem
  rcases hmem with rfl | rfl | rfl | rfl | rfl | rfl | hmem
  · simp [raceRun, raceStep, hdb, hasHash_snoc_self, hcount]
  · simp [raceRun, raceStep, hdb, hasHash_snoc_self, hcount]
  · simp [raceRun, raceStep, hdb, hasHash_snoc_self, hcount]
  · simp [raceRun, raceStep, hdb, hasHash_snoc_self, hcount]
  · simp [raceRun, raceStep, hdb, hasHash_snoc_self, hcount]
  · simp [raceRun, raceStep, hdb, hasHash_snoc_self, hcount]
  · cases hmem

/-- Counterexample to C9 as stated: under the check-check-commit-commit
interleaving both calls pass the duplicate check, the first commit wins,
and the loser's insert violates the unique constraint — its outcome is the
generic storage-error message, which is not the duplicate message the
claim requires. -/
theorem C9_race_loser_generic_error :
    raceRun "h" none none "IntegrityError" "IntegrityError"
        [false, true, false, true] ⟨[], CallPhase.start, CallPhase.start⟩
      = ⟨["h"], CallPhase.done (savedMsg none),
          CallPhase.done (dbErrMsg "IntegrityError")⟩ ∧
    dbErrMsg "IntegrityError" ≠ dupMsg := by
  refine ⟨by decide, by decide⟩

/-- Witness for the amended C9: a concrete race from the empty database
under the commit-loses interleaving. -/
theorem C9_race_unique_winner_witness :
    hasHash [] "h" = false ∧
    [false, true, true, false] ∈ interleavings ∧
    ((raceRun "h" (some "1.2.3.4") none "ea" "eb" [false, true, true, false]
        ⟨[], CallPhase.start, CallPhase.start⟩).db.count "h" = 1 ∧
     (((raceRun "h" (some "1.2.3.4") none "ea" "eb" [false, true, true, false]
           ⟨[], CallPhase.start, CallPhase.start⟩).pa
             = CallPhase.done (savedMsg (some "1.2.3.4")) ∧
        ((raceRun "h" (some "1.2.3.4") none "ea" "eb" [false, true, true, false]
            ⟨[], CallPhase.start, CallPhase.start⟩).pb = CallPhase.done dupMsg ∨
         (raceRun "h" (some "1.2.3.4") none "ea" "eb" [false, true, true, false]
            ⟨[], CallPhase.start, CallPhase.start⟩).pb
              = CallPhase.done (dbErrMsg "eb"))) ∨
      ((raceRun "h" (some "1.2.3.4") none "ea" "eb" [false, true, true, false]
           ⟨[], CallPhase.start, CallPhase.start⟩).pb
             = CallPhase.done (savedMsg none) ∧
        ((raceRun "h" (some "1.2.3.4") none "ea" "eb" [false, true, true, false]
            ⟨[], CallPhase.start, CallPhase.start⟩).pa = CallPhase.done dupMsg ∨
         (raceRun "h" (some "1.2.3.4") none "ea" "eb" [false, true, true, false]
            ⟨[], CallPhase.start, CallPhase.start⟩).pa
              = CallPhase.done (dbErrMsg "ea"))))) :=
  ⟨by decide, by decide,
   C9_race_unique_winner "h" (some "1.2.3.4") none "ea" "eb" [] (by decide)
     [false, true, true, false] (by decide)⟩

end SpeechRec
